import Mathlib

/-!
SyncTV room aggregate: member resolution, permissions and movie protection.

A shallow embedding of `internal/op/room.go`.  The room is a record; every
method of `*Room` becomes a function from a room state to a result paired with
the successor state.  The collaborators the room only calls into (the storage
package `db`, the movie list, the hub, the password hashing primitive) are
abstract: their state is a type parameter and their operations are the fields
of `Env`, so every theorem holds for every behaviour of the collaborators.
A ghost `trace` records each call the room issues to a collaborator.
-/

namespace SyncTV

/-! ## The `model` package -/

/-- Modelled from the spec: `model.RoomMemberRole` is declared in `internal/model`, which is
not among the sources; the spec orders the roles Unknown < Member < Admin < Creator. -/
inductive RoomMemberRole where
  | Unknown
  | Member
  | Admin
  | Creator
  deriving DecidableEq, Repr

/-- Modelled from the spec: `RoomMemberRole.IsAdmin` is declared in `internal/model`; a role
is an admin role when it is at least Admin in the order Unknown < Member < Admin < Creator. -/
def RoomMemberRole.IsAdmin : RoomMemberRole → Bool
  | .Admin => true
  | .Creator => true
  | _ => false

/-- Modelled from the spec: `model.RoomMemberStatus` is declared in `internal/model`; the spec
lists Pending / Active / Banned / Unknown. -/
inductive RoomMemberStatus where
  | Unknown
  | Banned
  | Pending
  | Active
  deriving DecidableEq, Repr

/-- Room-level capability bitmask (`model.RoomMemberPermission`, an unsigned 32-bit word). -/
abbrev RoomMemberPermission := Nat

/-- Room-administration capability bitmask (`model.RoomAdminPermission`). -/
abbrev RoomAdminPermission := Nat

/-- Modelled from the spec: `RoomMemberPermission.Has` is declared in `internal/model`; the
spec describes a bitmask with a `has(capability)` test, that is, every bit of `permission` is
set in `p`. -/
def RoomMemberPermission.Has (p permission : RoomMemberPermission) : Bool :=
  (p &&& permission) == permission

/-- Modelled from the spec: the seven capability flags (list/add/delete/edit movies, set
current movie/status, send chat) are declared in `internal/model`; one bit each. -/
def PermissionGetMovieList : RoomMemberPermission := 1

/-- Modelled from the spec: capability flag "add movie" of `internal/model`. -/
def PermissionAddMovie : RoomMemberPermission := 2

/-- Modelled from the spec: capability flag "delete movie" of `internal/model`. -/
def PermissionDeleteMovie : RoomMemberPermission := 4

/-- Modelled from the spec: capability flag "edit movie" of `internal/model`. -/
def PermissionEditMovie : RoomMemberPermission := 8

/-- Modelled from the spec: capability flag "set current movie" of `internal/model`. -/
def PermissionSetCurrentMovie : RoomMemberPermission := 16

/-- Modelled from the spec: capability flag "set current status" of `internal/model`. -/
def PermissionSetCurrentStatus : RoomMemberPermission := 32

/-- Modelled from the spec: capability flag "send chat message" of `internal/model`. -/
def PermissionSendChatMessage : RoomMemberPermission := 64

/-- Modelled from the spec: `model.AllPermissions` is declared in `internal/model`; every bit
of the 32-bit word. -/
def AllPermissions : RoomMemberPermission := 2 ^ 32 - 1

/-- Modelled from the spec: `model.NoPermission` is declared in `internal/model`; no bit. -/
def NoPermission : RoomMemberPermission := 0

/-- Modelled from the spec: `model.AllAdminPermissions` is declared in `internal/model`; every
bit of the 32-bit word. -/
def AllAdminPermissions : RoomAdminPermission := 2 ^ 32 - 1

/-- Modelled from the spec: `model.NoAdminPermission` is declared in `internal/model`. -/
def NoAdminPermission : RoomAdminPermission := 0

/-- The fields of `model.RoomMember` that `room.go` reads or writes. -/
structure RoomMember where
  RoomID : String
  UserID : String
  Status : RoomMemberStatus
  Role : RoomMemberRole
  Permissions : RoomMemberPermission
  AdminPermissions : RoomAdminPermission
  deriving DecidableEq, Repr

/-- The fields of `model.RoomSettings` that `room.go` reads. -/
structure RoomSettings where
  DisableJoinNewUser : Bool
  JoinNeedReview : Bool
  UserDefaultPermissions : RoomMemberPermission
  DisableGuest : Bool
  CanGetMovieList : Bool
  CanAddMovie : Bool
  CanDeleteMovie : Bool
  CanEditMovie : Bool
  CanSetCurrentMovie : Bool
  CanSetCurrentStatus : Bool
  CanSendChatMessage : Bool
  deriving DecidableEq, Repr

/-- The fields of `model.BaseMovie` that `room.go` reads. -/
structure BaseMovie where
  Url : String
  Name : String
  Live : Bool
  deriving DecidableEq, Repr

/-- A movie of the room's list (`op.Movie`): its ID, room and base metadata. -/
structure Movie where
  ID : String
  RoomID : String
  Base : BaseMovie
  deriving DecidableEq, Repr

/-! ## The current playback state -/

/-- Modelled from the spec: the Status record of CurrentState (`op/current.go` is not among
the sources): playing flag, seek position, rate and last-update timestamp.  Only the exact
values 0 and 1 are ever written by the code embedded here, so the two numbers are integers. -/
structure Status where
  Playing : Bool
  Seek : Int
  Rate : Int
  lastUpdate : Nat
  deriving DecidableEq, Repr

/-- Modelled from the spec: CurrentState (`op/current.go` is not among the sources): current
movie ID (empty means none), the live flag mirrored from the movie, and the status. -/
structure Current where
  MovieID : String
  IsLive : Bool
  Status : Status
  deriving DecidableEq, Repr

/-- Modelled from the spec: `current.SetMovie` (`op/current.go` is not among the sources):
replaces the pointer and resets the status to playing=play, seek=0, rate=1, updatedAt=now. -/
def Current.SetMovie (_c : Current) (now : Nat) (movieID : String) (isLive play : Bool) :
    Current :=
  { MovieID := movieID, IsLive := isLive,
    Status := { Playing := play, Seek := 0, Rate := 1, lastUpdate := now } }

/-! ## Calls issued to collaborators -/

/-- The options `LoadOrCreateRoomMember` passes to `db.FirstOrCreateRoomMemberRelation`. -/
inductive CreateRoomMemberRelationConfig where
  | WithRoomMemberStatus (status : RoomMemberStatus)
  | WithRoomMemberRelationPermissions (permissions : RoomMemberPermission)
  | WithRoomMemberRole (role : RoomMemberRole)
  | WithRoomMemberAdminPermissions (permissions : RoomAdminPermission)
  deriving DecidableEq, Repr

/-- One call from the room to a collaborator, with its arguments: the calls into package
`db`, into the movie list and into the hub that `room.go` makes. -/
inductive Call where
  | GetRoomMember (roomID userID : String)
  | FirstOrCreateRoomMemberRelation (roomID userID : String)
      (conf : List CreateRoomMemberRelationConfig)
  | SetRoomHashedPassword (roomID : String) (hashedPassword : List Nat)
  | SetMemberPermissions (roomID userID : String) (permissions : RoomMemberPermission)
  | AddMemberPermissions (roomID userID : String) (permissions : RoomMemberPermission)
  | RemoveMemberPermissions (roomID userID : String) (permissions : RoomMemberPermission)
  | RoomApprovePendingMember (roomID userID : String)
  | RoomBanMember (roomID userID : String)
  | RoomUnbanMember (roomID userID : String)
  | RoomSetAdminPermissions (roomID userID : String) (permissions : RoomAdminPermission)
  | RoomSetAdmin (roomID userID : String) (permissions : RoomAdminPermission)
  | RoomSetMember (roomID userID : String) (permissions : RoomMemberPermission)
  | KickUser (userID : String)
  | moviesUpdate (movieId : String) (movie : BaseMovie)
  | moviesDeleteMovieByID (id : String)
  | moviesDeleteMoviesByID (ids : List String)
  | moviesClear
  | moviesGetMovieByID (id : String)
  deriving DecidableEq, Repr

/-- The collaborators of the room, none of which is among the sources: package `db` over a
storage state `σ`, the movie list over `μ`, the hub over `η`, the global guest setting's
constant, and the password primitives.  An error is its message. -/
structure Env (σ μ η : Type) where
  GuestUserID : String
  GetRoomMember : σ → String → String → Except String RoomMember × σ
  FirstOrCreateRoomMemberRelation :
    σ → String → String → List CreateRoomMemberRelationConfig → Except String RoomMember × σ
  SetRoomHashedPassword : σ → String → List Nat → Option String × σ
  SetMemberPermissions : σ → String → String → RoomMemberPermission → Option String × σ
  AddMemberPermissions : σ → String → String → RoomMemberPermission → Option String × σ
  RemoveMemberPermissions : σ → String → String → RoomMemberPermission → Option String × σ
  RoomApprovePendingMember : σ → String → String → Option String × σ
  RoomBanMember : σ → String → String → Option String × σ
  RoomUnbanMember : σ → String → String → Option String × σ
  RoomSetAdminPermissions : σ → String → String → RoomAdminPermission → Option String × σ
  RoomSetAdmin : σ → String → String → RoomAdminPermission → Option String × σ
  RoomSetMember : σ → String → String → RoomMemberPermission → Option String × σ
  KickUser : η → String → η
  moviesUpdate : μ → String → BaseMovie → Option String × μ
  moviesDeleteMovieByID : μ → String → Option String × μ
  moviesDeleteMoviesByID : μ → List String → Option String × μ
  moviesClear : μ → Option String × μ
  moviesGetMovieByID : μ → String → Except String Movie
  CheckPassword : List Nat → String → Bool
  GenerateFromPassword : String → Except String (List Nat)

/-! ## The room -/

/-- The state `room.go` works on: the fields of `op.Room` (with those of the embedded
`model.Room` it uses), followed by what the room reaches through package-level names: the
storage state, the global `settings.EnableGuest`, the wall clock, and the ghost trace of calls
issued so far. -/
structure Room (σ μ η : Type) where
  ID : String
  CreatorID : String
  Settings : RoomSettings
  HashedPassword : List Nat
  version : Nat
  current : Current
  hub : η
  movies : μ
  members : String → Option RoomMember
  db : σ
  EnableGuest : Bool
  now : Nat
  trace : List Call

variable {σ μ η : Type}

/-- The ghost step: record a call in the trace. -/
def Room.record (r : Room σ μ η) (c : Call) : Room σ μ η :=
  { r with trace := r.trace ++ [c] }

/-- The member cache's `Load`. -/
def Room.membersLoad (r : Room σ μ η) (userID : String) : Option RoomMember :=
  r.members userID

/-- The member cache's `Delete`. -/
def Room.membersDelete (r : Room σ μ η) (userID : String) : Room σ μ η :=
  { r with members := fun k => if k = userID then none else r.members k }

/-- The member cache's `LoadOrStore`: the entry already present, or else the given one, which
is then stored. -/
def Room.membersLoadOrStore (r : Room σ μ η) (userID : String) (member : RoomMember) :
    RoomMember × Room σ μ η :=
  match r.members userID with
  | some actual => (actual, r)
  | none => (member, { r with members := fun k => if k = userID then some member else r.members k })

/-- The method `Room.IsCreator`. -/
def Room.IsCreator (r : Room σ μ η) (userID : String) : Bool :=
  r.CreatorID == userID

/-- The method `Room.IsGuest`. -/
def Room.IsGuest (E : Env σ μ η) (_r : Room σ μ η) (userID : String) : Bool :=
  userID == E.GuestUserID

/-- The fix-up both resolution paths apply to the record storage returned, before caching. -/
def Room.normalize (E : Env σ μ η) (r : Room σ μ η) (userID : String) (member : RoomMember) :
    RoomMember :=
  if r.IsCreator userID then
    { member with Role := .Creator, Permissions := AllPermissions,
                  AdminPermissions := AllAdminPermissions, Status := .Active }
  else if Room.IsGuest E r userID then
    { member with Role := .Member, Permissions := NoPermission,
                  AdminPermissions := NoAdminPermission, Status := .Active }
  else if member.Role.IsAdmin then
    { member with Permissions := AllPermissions }
  else member

/-- The method `Room.LoadRoomMember`. -/
def Room.LoadRoomMember (E : Env σ μ η) (r : Room σ μ η) (userID : String) :
    Except String RoomMember × Room σ μ η :=
  if Room.IsGuest E r userID && (r.Settings.DisableGuest || !r.EnableGuest) then
    (.error "guest is disabled", r)
  else
    match r.membersLoad userID with
    | some member => (.ok member, r)
    | none =>
      let res := E.GetRoomMember r.db r.ID userID
      let r1 := { r with db := res.2 }.record (.GetRoomMember r.ID userID)
      match res.1 with
      | .error err => (.error ("get room member failed: " ++ err), r1)
      | .ok member =>
        let stored := r1.membersLoadOrStore userID (Room.normalize E r1 userID member)
        (.ok stored.1, stored.2)

/-- The configuration `LoadOrCreateRoomMember` builds for the create call. -/
def Room.createConf (E : Env σ μ η) (r : Room σ μ η) (userID : String) :
    List CreateRoomMemberRelationConfig :=
  if r.IsCreator userID then
    [.WithRoomMemberStatus .Active, .WithRoomMemberRelationPermissions AllPermissions,
     .WithRoomMemberRole .Creator, .WithRoomMemberAdminPermissions AllAdminPermissions]
  else if Room.IsGuest E r userID then
    [.WithRoomMemberStatus .Active, .WithRoomMemberRelationPermissions NoPermission,
     .WithRoomMemberRole .Member, .WithRoomMemberAdminPermissions NoAdminPermission]
  else
    [.WithRoomMemberRelationPermissions r.Settings.UserDefaultPermissions] ++
      (if r.Settings.JoinNeedReview then [.WithRoomMemberStatus .Pending]
       else [.WithRoomMemberStatus .Active])

/-- The method `Room.LoadOrCreateRoomMember`. -/
def Room.LoadOrCreateRoomMember (E : Env σ μ η) (r : Room σ μ η) (userID : String) :
    Except String RoomMember × Room σ μ η :=
  if r.Settings.DisableJoinNewUser then
    Room.LoadRoomMember E r userID
  else if Room.IsGuest E r userID && (r.Settings.DisableGuest || !r.EnableGuest) then
    (.error "guest is disabled", r)
  else
    match r.membersLoad userID with
    | some member => (.ok member, r)
    | none =>
      let conf := Room.createConf E r userID
      let res := E.FirstOrCreateRoomMemberRelation r.db r.ID userID conf
      let r1 := { r with db := res.2 }.record (.FirstOrCreateRoomMemberRelation r.ID userID conf)
      match res.1 with
      | .error err => (.error err, r1)
      | .ok member =>
        let stored := r1.membersLoadOrStore userID (Room.normalize E r1 userID member)
        (.ok stored.1, stored.2)

/-- The method `Room.HasPermission`. -/
def Room.HasPermission (E : Env σ μ η) (r : Room σ μ η) (userID : String)
    (permission : RoomMemberPermission) : Bool × Room σ μ η :=
  if r.IsCreator userID then (true, r)
  else
    match Room.LoadOrCreateRoomMember E r userID with
    | (.error _, r1) => (false, r1)
    | (.ok rur, r1) =>
      if rur.Role.IsAdmin then (true, r1)
      else if
        (RoomMemberPermission.Has permission PermissionGetMovieList
            && !r1.Settings.CanGetMovieList) ||
        (RoomMemberPermission.Has permission PermissionAddMovie
            && !r1.Settings.CanAddMovie) ||
        (RoomMemberPermission.Has permission PermissionDeleteMovie
            && !r1.Settings.CanDeleteMovie) ||
        (RoomMemberPermission.Has permission PermissionEditMovie
            && !r1.Settings.CanEditMovie) ||
        (RoomMemberPermission.Has permission PermissionSetCurrentMovie
            && !r1.Settings.CanSetCurrentMovie) ||
        (RoomMemberPermission.Has permission PermissionSetCurrentStatus
            && !r1.Settings.CanSetCurrentStatus) ||
        (RoomMemberPermission.Has permission PermissionSendChatMessage
            && !r1.Settings.CanSendChatMessage)
      then (false, r1)
      else (RoomMemberPermission.Has rur.Permissions permission, r1)

/-! ## Movies and the current movie -/

/-- The method `Room.CurrentMovieID`. -/
def Room.CurrentMovieID (r : Room σ μ η) : String :=
  r.current.MovieID

/-- The method `Room.UpdateMovie`. -/
def Room.UpdateMovie (E : Env σ μ η) (r : Room σ μ η) (movieId : String) (movie : BaseMovie) :
    Option String × Room σ μ η :=
  if r.current.MovieID == movieId then
    (some "cannot update current movie", r)
  else
    let res := E.moviesUpdate r.movies movieId movie
    (res.1, { r with movies := res.2 }.record (.moviesUpdate movieId movie))

/-- The method `Room.DeleteMovieByID`. -/
def Room.DeleteMovieByID (E : Env σ μ η) (r : Room σ μ η) (id : String) :
    Option String × Room σ μ η :=
  if r.current.MovieID == id then
    (some "cannot delete current movie", r)
  else
    let res := E.moviesDeleteMovieByID r.movies id
    (res.1, { r with movies := res.2 }.record (.moviesDeleteMovieByID id))

/-- The method `Room.DeleteMoviesByID`: the loop over `ids` stops at the first one equal to
the current movie ID, and is entered only when that ID is not empty. -/
def Room.DeleteMoviesByID (E : Env σ μ η) (r : Room σ μ η) (ids : List String) :
    Option String × Room σ μ η :=
  if r.current.MovieID != "" && ids.any (fun id => id == r.current.MovieID) then
    (some "cannot delete current movie", r)
  else
    let res := E.moviesDeleteMoviesByID r.movies ids
    (res.1, { r with movies := res.2 }.record (.moviesDeleteMoviesByID ids))

/-- The method `Room.GetMovieByID`. -/
def Room.GetMovieByID (E : Env σ μ η) (r : Room σ μ η) (id : String) :
    Except String Movie × Room σ μ η :=
  (E.moviesGetMovieByID r.movies id, r.record (.moviesGetMovieByID id))

/-- The method `Room.SetCurrentMovie`. -/
def Room.SetCurrentMovie (E : Env σ μ η) (r : Room σ μ η) (movieID : String) (play : Bool) :
    Option String × Room σ μ η :=
  if movieID == "" then
    (none, { r with current := r.current.SetMovie r.now "" false play })
  else
    match Room.GetMovieByID E r movieID with
    | (.error err, r1) => (some err, r1)
    | (.ok m, r1) =>
      (none, { r1 with current := r1.current.SetMovie r1.now m.ID m.Base.Live play })

/-- The method `Room.ClearMovies`. -/
def Room.ClearMovies (E : Env σ μ η) (r : Room σ μ η) : Option String × Room σ μ η :=
  let r1 := (Room.SetCurrentMovie E r "" false).2
  let res := E.moviesClear r1.movies
  (res.1, { r1 with movies := res.2 }.record .moviesClear)

/-! ## Password and version -/

/-- One bit of the reflected CRC-32 division by the IEEE polynomial. -/
def crc32Bit (crc : Nat) : Nat :=
  if crc % 2 = 1 then (crc / 2) ^^^ 0xEDB88320 else crc / 2

/-- One byte of the CRC-32 update. -/
def crc32Byte (crc b : Nat) : Nat :=
  crc32Bit^[8] (crc ^^^ (b % 256))

/-- The standard library's `crc32.ChecksumIEEE` over a byte string. -/
def ChecksumIEEE (data : List Nat) : Nat :=
  (data.foldl crc32Byte 0xFFFFFFFF) ^^^ 0xFFFFFFFF

/-- The method `Room.Version`. -/
def Room.Version (r : Room σ μ η) : Nat :=
  r.version

/-- The method `Room.CheckVersion`. -/
def Room.CheckVersion (r : Room σ μ η) (version : Nat) : Bool :=
  r.version == version

/-- The method `Room.NeedPassword`. -/
def Room.NeedPassword (r : Room σ μ η) : Bool :=
  r.HashedPassword.length != 0

/-- The tail of `Room.SetPassword`: assign the in-memory hash, then call storage. -/
def Room.storeHashedPassword (E : Env σ μ η) (r : Room σ μ η) (hashedPassword : List Nat) :
    Option String × Room σ μ η :=
  let r1 := { r with HashedPassword := hashedPassword }
  let res := E.SetRoomHashedPassword r1.db r1.ID hashedPassword
  (res.1, { r1 with db := res.2 }.record (.SetRoomHashedPassword r1.ID hashedPassword))

/-- The method `Room.SetPassword`. -/
def Room.SetPassword (E : Env σ μ η) (r : Room σ μ η) (password : String) :
    Option String × Room σ μ η :=
  if E.CheckPassword r.HashedPassword password && r.NeedPassword then
    (some "password is the same", r)
  else if password != "" then
    match E.GenerateFromPassword password with
    | .error err => (some err, r)
    | .ok hashedPassword =>
      Room.storeHashedPassword E { r with version := ChecksumIEEE hashedPassword } hashedPassword
  else
    Room.storeHashedPassword E r []

/-! ## Member administration -/

/-- The method `Room.SetMemberPermissions`; the deferred cache delete runs after the call. -/
def Room.SetMemberPermissions (E : Env σ μ η) (r : Room σ μ η) (userID : String)
    (permissions : RoomMemberPermission) : Option String × Room σ μ η :=
  let res := E.SetMemberPermissions r.db r.ID userID permissions
  let r1 := { r with db := res.2 }.record (.SetMemberPermissions r.ID userID permissions)
  (res.1, r1.membersDelete userID)

/-- The method `Room.AddMemberPermissions`. -/
def Room.AddMemberPermissions (E : Env σ μ η) (r : Room σ μ η) (userID : String)
    (permissions : RoomMemberPermission) : Option String × Room σ μ η :=
  let res := E.AddMemberPermissions r.db r.ID userID permissions
  let r1 := { r with db := res.2 }.record (.AddMemberPermissions r.ID userID permissions)
  (res.1, r1.membersDelete userID)

/-- The method `Room.RemoveMemberPermissions`. -/
def Room.RemoveMemberPermissions (E : Env σ μ η) (r : Room σ μ η) (userID : String)
    (permissions : RoomMemberPermission) : Option String × Room σ μ η :=
  let res := E.RemoveMemberPermissions r.db r.ID userID permissions
  let r1 := { r with db := res.2 }.record (.RemoveMemberPermissions r.ID userID permissions)
  (res.1, r1.membersDelete userID)

/-- The method `Room.ApprovePendingMember`. -/
def Room.ApprovePendingMember (E : Env σ μ η) (r : Room σ μ η) (userID : String) :
    Option String × Room σ μ η :=
  let res := E.RoomApprovePendingMember r.db r.ID userID
  let r1 := { r with db := res.2 }.record (.RoomApprovePendingMember r.ID userID)
  (res.1, r1.membersDelete userID)

/-- The method `Room.BanMember`; the deferred closure deletes the cache entry, then kicks. -/
def Room.BanMember (E : Env σ μ η) (r : Room σ μ η) (userID : String) :
    Option String × Room σ μ η :=
  if r.IsCreator userID then
    (some "you are creator, cannot ban", r)
  else
    let res := E.RoomBanMember r.db r.ID userID
    let r1 := { r with db := res.2 }.record (.RoomBanMember r.ID userID)
    let r2 := r1.membersDelete userID
    (res.1, { r2 with hub := E.KickUser r2.hub userID }.record (.KickUser userID))

/-- The method `Room.UnbanMember`. -/
def Room.UnbanMember (E : Env σ μ η) (r : Room σ μ η) (userID : String) :
    Option String × Room σ μ η :=
  if r.IsCreator userID then
    (some "you are creator, cannot unban", r)
  else
    let res := E.RoomUnbanMember r.db r.ID userID
    let r1 := { r with db := res.2 }.record (.RoomUnbanMember r.ID userID)
    (res.1, r1.membersDelete userID)

/-- The method `Room.SetAdminPermissions`. -/
def Room.SetAdminPermissions (E : Env σ μ η) (r : Room σ μ η) (userID : String)
    (permissions : RoomAdminPermission) : Option String × Room σ μ η :=
  let res := E.RoomSetAdminPermissions r.db r.ID userID permissions
  let r1 := { r with db := res.2 }.record (.RoomSetAdminPermissions r.ID userID permissions)
  (res.1, r1.membersDelete userID)

/-- The method `Room.AddAdminPermissions`. -/
def Room.AddAdminPermissions (E : Env σ μ η) (r : Room σ μ η) (userID : String)
    (permissions : RoomAdminPermission) : Option String × Room σ μ η :=
  let res := E.RoomSetAdminPermissions r.db r.ID userID permissions
  let r1 := { r with db := res.2 }.record (.RoomSetAdminPermissions r.ID userID permissions)
  (res.1, r1.membersDelete userID)

/-- The method `Room.RemoveAdminPermissions`. -/
def Room.RemoveAdminPermissions (E : Env σ μ η) (r : Room σ μ η) (userID : String)
    (_permissions : RoomAdminPermission) : Option String × Room σ μ η :=
  let res := E.RoomSetAdminPermissions r.db r.ID userID 0
  let r1 := { r with db := res.2 }.record (.RoomSetAdminPermissions r.ID userID 0)
  (res.1, r1.membersDelete userID)

/-- The method `Room.SetAdmin`. -/
def Room.SetAdmin (E : Env σ μ η) (r : Room σ μ η) (userID : String)
    (permissions : RoomAdminPermission) : Option String × Room σ μ η :=
  if r.IsCreator userID then
    (some "you are creator, cannot set admin", r)
  else
    let res := E.RoomSetAdmin r.db r.ID userID permissions
    let r1 := { r with db := res.2 }.record (.RoomSetAdmin r.ID userID permissions)
    (res.1, r1.membersDelete userID)

/-- The method `Room.SetMember`. -/
def Room.SetMember (E : Env σ μ η) (r : Room σ μ η) (userID : String)
    (permissions : RoomMemberPermission) : Option String × Room σ μ η :=
  if r.IsCreator userID then
    (some "you are creator, cannot set member", r)
  else
    let res := E.RoomSetMember r.db r.ID userID permissions
    let r1 := { r with db := res.2 }.record (.RoomSetMember r.ID userID permissions)
    (res.1, r1.membersDelete userID)


/-! ## Reference definitions and example inputs -/

/-- The seven permission classes of the switch in `Room.HasPermission`, each with the room
settings toggle that guards it. -/
def permissionToggles (s : RoomSettings) : List (RoomMemberPermission × Bool) :=
  [(PermissionGetMovieList, s.CanGetMovieList),
   (PermissionAddMovie, s.CanAddMovie),
   (PermissionDeleteMovie, s.CanDeleteMovie),
   (PermissionEditMovie, s.CanEditMovie),
   (PermissionSetCurrentMovie, s.CanSetCurrentMovie),
   (PermissionSetCurrentStatus, s.CanSetCurrentStatus),
   (PermissionSendChatMessage, s.CanSendChatMessage)]

/-- Some permission class contained in `permission` has its toggle off in `s`. -/
def toggledOff (s : RoomSettings) (permission : RoomMemberPermission) : Bool :=
  (permissionToggles s).any
    (fun ct => RoomMemberPermission.Has permission ct.1 && !ct.2)

/-- The reference definition of the permission check, in the words of the specification:
creator, then failed resolution, then admin role, then the room-level kill switch, then the
member's bitmask. -/
def HasPermissionRef (E : Env σ μ η) (r : Room σ μ η) (userID : String)
    (permission : RoomMemberPermission) : Bool :=
  if r.CreatorID = userID then true
  else
    match (Room.LoadOrCreateRoomMember E r userID).1 with
    | .error _ => false
    | .ok member =>
      if member.Role.IsAdmin then true
      else if toggledOff r.Settings permission then false
      else RoomMemberPermission.Has member.Permissions permission

/-- The record of `demoDb` for `(roomID, userID)`, if any. -/
def demoFind (db : List RoomMember) (roomID userID : String) : Option RoomMember :=
  db.find? (fun m => m.RoomID == roomID && m.UserID == userID)

/-- One creation option applied to a fresh record. -/
def applyConf (m : RoomMember) : CreateRoomMemberRelationConfig → RoomMember
  | .WithRoomMemberStatus status => { m with Status := status }
  | .WithRoomMemberRelationPermissions permissions => { m with Permissions := permissions }
  | .WithRoomMemberRole role => { m with Role := role }
  | .WithRoomMemberAdminPermissions permissions => { m with AdminPermissions := permissions }

/-- A stand-in for the password hash in examples: the bytes of the password after a marker. -/
def demoHash (password : String) : List Nat :=
  36 :: password.toList.map Char.toNat

/-- An example environment: storage is a list of member records, the movie list a list of
movies, the hub the list of connected user IDs.  Storage writes are all accepted, or all
rejected when `failWrites` is set; they do not edit the records. -/
def demoEnv (failWrites : Bool) : Env (List RoomMember) (List Movie) (List String) where
  GuestUserID := "guest"
  GetRoomMember db roomID userID :=
    match demoFind db roomID userID with
    | some m => (.ok m, db)
    | none => (.error "record not found", db)
  FirstOrCreateRoomMemberRelation db roomID userID conf :=
    match demoFind db roomID userID with
    | some m => (.ok m, db)
    | none =>
      let m := conf.foldl applyConf
        { RoomID := roomID, UserID := userID, Status := .Active, Role := .Member,
          Permissions := 0, AdminPermissions := 0 }
      (.ok m, m :: db)
  SetRoomHashedPassword db _ _ := (if failWrites then some "storage unavailable" else none, db)
  SetMemberPermissions db _ _ _ := (if failWrites then some "storage unavailable" else none, db)
  AddMemberPermissions db _ _ _ := (if failWrites then some "storage unavailable" else none, db)
  RemoveMemberPermissions db _ _ _ :=
    (if failWrites then some "storage unavailable" else none, db)
  RoomApprovePendingMember db _ _ := (if failWrites then some "storage unavailable" else none, db)
  RoomBanMember db _ _ := (if failWrites then some "storage unavailable" else none, db)
  RoomUnbanMember db _ _ := (if failWrites then some "storage unavailable" else none, db)
  RoomSetAdminPermissions db _ _ _ :=
    (if failWrites then some "storage unavailable" else none, db)
  RoomSetAdmin db _ _ _ := (if failWrites then some "storage unavailable" else none, db)
  RoomSetMember db _ _ _ := (if failWrites then some "storage unavailable" else none, db)
  KickUser hub userID := hub.filter (fun u => u != userID)
  moviesUpdate ms id base :=
    if ms.any (fun m => m.ID == id) then
      (none, ms.map (fun m => if m.ID == id then { m with Base := base } else m))
    else (some "movie not found", ms)
  moviesDeleteMovieByID ms id :=
    if ms.any (fun m => m.ID == id) then (none, ms.filter (fun m => m.ID != id))
    else (some "movie not found", ms)
  moviesDeleteMoviesByID ms ids := (none, ms.filter (fun m => !ids.contains m.ID))
  moviesClear _ := (none, [])
  moviesGetMovieByID ms id :=
    match ms.find? (fun m => m.ID == id) with
    | some m => .ok m
    | none => .error "movie not found"
  CheckPassword hash password := hash.length == 0 || hash == demoHash password
  GenerateFromPassword password := .ok (demoHash password)

/-- Example settings: every feature is on except adding movies. -/
def demoSettings : RoomSettings where
  DisableJoinNewUser := false
  JoinNeedReview := false
  UserDefaultPermissions := 65
  DisableGuest := false
  CanGetMovieList := true
  CanAddMovie := false
  CanDeleteMovie := true
  CanEditMovie := true
  CanSetCurrentMovie := true
  CanSetCurrentStatus := true
  CanSendChatMessage := true

/-- Example room "r1" created by "carol": storage holds an Admin record for "alice", a
Member record for "bob", a banned Member record for the creator and a banned Admin record
for the guest; the list holds movies "m1" (current) and "m2" (live); "bob" is
connected; the member cache is empty. -/
def demoRoom : Room (List RoomMember) (List Movie) (List String) where
  ID := "r1"
  CreatorID := "carol"
  Settings := demoSettings
  HashedPassword := []
  version := 0
  current := { MovieID := "m1", IsLive := false,
               Status := { Playing := true, Seek := 0, Rate := 1, lastUpdate := 5 } }
  hub := ["bob", "alice"]
  movies := [{ ID := "m1", RoomID := "r1", Base := { Url := "u1", Name := "one", Live := false } },
             { ID := "m2", RoomID := "r1", Base := { Url := "u2", Name := "two", Live := true } }]
  members := fun _ => none
  db := [{ RoomID := "r1", UserID := "alice", Status := .Active, Role := .Admin,
           Permissions := 2, AdminPermissions := 0 },
         { RoomID := "r1", UserID := "bob", Status := .Active, Role := .Member,
           Permissions := 67, AdminPermissions := 0 },
         { RoomID := "r1", UserID := "carol", Status := .Banned, Role := .Member,
           Permissions := 0, AdminPermissions := 0 },
         { RoomID := "r1", UserID := "guest", Status := .Banned, Role := .Admin,
           Permissions := 127, AdminPermissions := 3 }]
  EnableGuest := true
  now := 7
  trace := []

/-- The example room with guest access switched off globally. -/
def demoRoomNoGuest : Room (List RoomMember) (List Movie) (List String) :=
  { demoRoom with EnableGuest := false }

/-- The example room after "alice" and "bob" were resolved: both are in the member cache. -/
def demoRoomCached : Room (List RoomMember) (List Movie) (List String) :=
  { demoRoom with
    members := fun k =>
      if k = "alice" then
        some { RoomID := "r1", UserID := "alice", Status := .Active, Role := .Admin,
               Permissions := AllPermissions, AdminPermissions := 0 }
      else if k = "bob" then
        some { RoomID := "r1", UserID := "bob", Status := .Active, Role := .Member,
               Permissions := 67, AdminPermissions := 0 }
      else none }

/-- The cache of `r1` is the cache of `r` with the entry of `userID` removed: no entry for
`userID`, every other entry as before. -/
def Room.invalidated (r r1 : Room σ μ η) (userID : String) : Prop :=
  r1.members userID = none ∧ ∀ k, k ≠ userID → r1.members k = r.members k

/-- The example room closed to new users: `DisableJoinNewUser` is set. -/
def demoRoomClosed : Room (List RoomMember) (List Movie) (List String) :=
  { demoRoom with Settings := { demoSettings with DisableJoinNewUser := true } }

/-- The example room with join review: `JoinNeedReview` is set. -/
def demoRoomReview : Room (List RoomMember) (List Movie) (List String) :=
  { demoRoom with Settings := { demoSettings with JoinNeedReview := true } }

/-- The example room protected by the password "old", at version 42. -/
def demoRoomLocked : Room (List RoomMember) (List Movie) (List String) :=
  { demoRoom with HashedPassword := demoHash "old", version := 42 }

/-- The fix-up resolution applies to the record of a regular user (neither creator nor
guest): an admin role is granted every permission, anything else is kept. -/
def resolveRegular (rec : RoomMember) : RoomMember :=
  if rec.Role.IsAdmin then { rec with Permissions := AllPermissions } else rec

/-- The options `Room.LoadOrCreateRoomMember` is to pass for a regular user: the room's
default permissions, and status Pending under join review, Active otherwise. -/
def regularConf (s : RoomSettings) : List CreateRoomMemberRelationConfig :=
  [.WithRoomMemberRelationPermissions s.UserDefaultPermissions,
   .WithRoomMemberStatus (if s.JoinNeedReview then .Pending else .Active)]

/-- What resolving the creator yields: Role=Creator, every permission, every admin
permission, Status=Active. -/
def RoomMember.resolvedAsCreator (m : RoomMember) : Prop :=
  m.Role = .Creator ∧ m.Permissions = AllPermissions ∧
    m.AdminPermissions = AllAdminPermissions ∧ m.Status = .Active

/-- What resolving the guest yields: Status=Active, no permission, Role=Member. -/
def RoomMember.resolvedAsGuest (m : RoomMember) : Prop :=
  m.Status = .Active ∧ m.Permissions = NoPermission ∧ m.Role = .Member

/-- The guest gate at the head of both resolution methods: the user is the guest and guest
access is disabled for the room or globally. -/
def Room.guestDisabled (E : Env σ μ η) (r : Room σ μ η) (userID : String) : Bool :=
  Room.IsGuest E r userID && (r.Settings.DisableGuest || !r.EnableGuest)

/-- The invariant of the member cache: every entry is what resolution stores under its key,
that is, a record the fix-up of `Room.normalize` leaves as it is.  The cache is private to the
room and written only by `LoadOrStore` of fixed-up records and by `Delete`. -/
def Room.cacheResolved (E : Env σ μ η) (r : Room σ μ η) : Prop :=
  ∀ userID m, r.members userID = some m → Room.normalize E r userID m = m


/-! ## Frame lemmas for member resolution -/

theorem membersLoadOrStore_frame (r : Room σ μ η) (userID : String) (member : RoomMember) :
    (r.membersLoadOrStore userID member).2.Settings = r.Settings ∧
    (r.membersLoadOrStore userID member).2.CreatorID = r.CreatorID ∧
    (r.membersLoadOrStore userID member).2.EnableGuest = r.EnableGuest := by
  unfold Room.membersLoadOrStore
  cases h : r.members userID <;> simp

theorem LoadRoomMember_frame (E : Env σ μ η) (r : Room σ μ η) (userID : String) :
    (Room.LoadRoomMember E r userID).2.Settings = r.Settings ∧
    (Room.LoadRoomMember E r userID).2.CreatorID = r.CreatorID ∧
    (Room.LoadRoomMember E r userID).2.EnableGuest = r.EnableGuest := by
  unfold Room.LoadRoomMember
  split
  · simp
  · split
    · simp
    · simp only []
      split
      · simp [Room.record]
      · have h := membersLoadOrStore_frame
          ({ r with db := (E.GetRoomMember r.db r.ID userID).2 }.record
            (.GetRoomMember r.ID userID)) userID
        simp [Room.record] at h ⊢
        exact h _

theorem LoadOrCreateRoomMember_frame (E : Env σ μ η) (r : Room σ μ η) (userID : String) :
    (Room.LoadOrCreateRoomMember E r userID).2.Settings = r.Settings ∧
    (Room.LoadOrCreateRoomMember E r userID).2.CreatorID = r.CreatorID ∧
    (Room.LoadOrCreateRoomMember E r userID).2.EnableGuest = r.EnableGuest := by
  unfold Room.LoadOrCreateRoomMember
  split
  · exact LoadRoomMember_frame E r userID
  · split
    · simp
    · split
      · simp
      · simp only []
        split
        · simp [Room.record]
        · have h := membersLoadOrStore_frame
            ({ r with db := (E.FirstOrCreateRoomMemberRelation r.db r.ID userID
                (Room.createConf E r userID)).2 }.record
              (.FirstOrCreateRoomMemberRelation r.ID userID (Room.createConf E r userID))) userID
          simp [Room.record] at h ⊢
          exact h _

/-! ## Permission check -/

theorem HasPermission_unfold (E : Env σ μ η) (r : Room σ μ η) (userID : String)
    (permission : RoomMemberPermission) :
    (Room.HasPermission E r userID permission).1 =
      if r.CreatorID = userID then true
      else
        match (Room.LoadOrCreateRoomMember E r userID).1 with
        | .error _ => false
        | .ok member =>
          if member.Role.IsAdmin then true
          else if toggledOff r.Settings permission then false
          else RoomMemberPermission.Has member.Permissions permission := by
  have hS := (LoadOrCreateRoomMember_frame E r userID).1
  unfold Room.HasPermission Room.IsCreator
  by_cases hc : r.CreatorID = userID
  · simp [hc]
  · simp only [beq_iff_eq, hc, if_false]
    rcases hres : Room.LoadOrCreateRoomMember E r userID with ⟨res, r1⟩
    rw [hres] at hS
    simp only at hS
    cases res with
    | error e => simp
    | ok rur =>
      simp only [hS]
      by_cases ha : rur.Role.IsAdmin = true
      · simp [ha]
      · rw [Bool.not_eq_true] at ha
        simp only [ha, Bool.false_eq_true, if_false]
        have ht : toggledOff r.Settings permission =
            ((RoomMemberPermission.Has permission PermissionGetMovieList
                && !r.Settings.CanGetMovieList) ||
            (RoomMemberPermission.Has permission PermissionAddMovie
                && !r.Settings.CanAddMovie) ||
            (RoomMemberPermission.Has permission PermissionDeleteMovie
                && !r.Settings.CanDeleteMovie) ||
            (RoomMemberPermission.Has permission PermissionEditMovie
                && !r.Settings.CanEditMovie) ||
            (RoomMemberPermission.Has permission PermissionSetCurrentMovie
                && !r.Settings.CanSetCurrentMovie) ||
            (RoomMemberPermission.Has permission PermissionSetCurrentStatus
                && !r.Settings.CanSetCurrentStatus) ||
            (RoomMemberPermission.Has permission PermissionSendChatMessage
                && !r.Settings.CanSendChatMessage)) := by
          simp [toggledOff, permissionToggles, List.any, Bool.or_assoc]
        rw [ht]
        generalize toggledOff r.Settings permission = b at ht
        rw [← ht]
        cases b <;> rfl

/-- C1, as stated, fails: in room "r1" adding movies is switched off, "alice" resolves to an
Admin-role member holding every permission bit, and `Room.HasPermission` still grants her
`PermissionAddMovie`. -/
theorem HasPermission_admin_ignores_toggle :
    demoRoom.Settings.CanAddMovie = false ∧
    RoomMemberPermission.Has PermissionAddMovie PermissionAddMovie = true ∧
    (∃ m, (Room.LoadOrCreateRoomMember (demoEnv false) demoRoom "alice").1 = .ok m ∧
      m.Role = .Admin ∧ RoomMemberPermission.Has m.Permissions PermissionAddMovie = true) ∧
    (Room.HasPermission (demoEnv false) demoRoom "alice" PermissionAddMovie).1 = true := by
  refine ⟨rfl, by decide, ⟨_, rfl, rfl, by decide⟩, by decide⟩

/-- C1 (amended): if the room's settings toggle for a permission class contained in the
requested permission is off, `Room.HasPermission` returns false for every user who is not the
creator and whose resolved member, if resolution succeeds, has no admin role. -/
theorem HasPermission_toggle_off_denies (E : Env σ μ η) (r : Room σ μ η) (userID : String)
    (permission : RoomMemberPermission)
    (hcreator : r.CreatorID ≠ userID)
    (hrole : ∀ m, (Room.LoadOrCreateRoomMember E r userID).1 = .ok m → m.Role.IsAdmin = false)
    (hoff : ∃ ct ∈ permissionToggles r.Settings,
      RoomMemberPermission.Has permission ct.1 = true ∧ ct.2 = false) :
    (Room.HasPermission E r userID permission).1 = false := by
  have hT : toggledOff r.Settings permission = true := by
    obtain ⟨ct, hmem, hhas, hflag⟩ := hoff
    unfold toggledOff
    rw [List.any_eq_true]
    exact ⟨ct, hmem, by simp [hhas, hflag]⟩
  rw [HasPermission_unfold, if_neg hcreator]
  cases hres : (Room.LoadOrCreateRoomMember E r userID).1 with
  | error e => rfl
  | ok m => simp [hrole m hres, hT]

/-- C1 (amended) at a concrete input: "bob" is an ordinary member of "r1" holding the
add-movie bit, adding movies is switched off, and the check denies him. -/
theorem HasPermission_toggle_off_denies_witness :
    (Room.HasPermission (demoEnv false) demoRoom "bob" PermissionAddMovie).1 = false :=
  HasPermission_toggle_off_denies (demoEnv false) demoRoom "bob" PermissionAddMovie
    (by decide)
    (by
      intro m hm
      have h : (Room.LoadOrCreateRoomMember (demoEnv false) demoRoom "bob").1 =
          .ok { RoomID := "r1", UserID := "bob", Status := .Active, Role := .Member,
                Permissions := 67, AdminPermissions := 0 } := rfl
      rw [h] at hm
      cases hm
      rfl)
    ⟨(PermissionAddMovie, false), by decide, by decide, rfl⟩

/-- C2: `Room.HasPermission` returns exactly what the reference definition returns, for every
environment, room, user and permission. -/
theorem HasPermission_eq_ref (E : Env σ μ η) (r : Room σ μ η) (userID : String)
    (permission : RoomMemberPermission) :
    (Room.HasPermission E r userID permission).1 = HasPermissionRef E r userID permission := by
  rw [HasPermission_unfold]
  rfl

/-! ## Member resolution -/

theorem normalize_idem (E : Env σ μ η) (r : Room σ μ η) (userID : String) (m : RoomMember) :
    Room.normalize E r userID (Room.normalize E r userID m) = Room.normalize E r userID m := by
  unfold Room.normalize
  by_cases hc : r.IsCreator userID = true
  · simp [hc]
  · by_cases hg : Room.IsGuest E r userID = true
    · simp [hc, hg]
    · by_cases ha : m.Role.IsAdmin = true
      · simp [hc, hg, ha]
      · simp [hc, hg, ha]

theorem normalize_creator (E : Env σ μ η) (r : Room σ μ η) (m : RoomMember) :
    (Room.normalize E r r.CreatorID m).resolvedAsCreator := by
  simp [Room.normalize, Room.IsCreator, RoomMember.resolvedAsCreator]

theorem normalize_guest (E : Env σ μ η) (r : Room σ μ η) (m : RoomMember)
    (hne : r.CreatorID ≠ E.GuestUserID) :
    (Room.normalize E r E.GuestUserID m).resolvedAsGuest := by
  simp [Room.normalize, Room.IsCreator, Room.IsGuest, RoomMember.resolvedAsGuest, hne]

theorem LoadRoomMember_result (E : Env σ μ η) (r : Room σ μ η) (userID : String) :
    (Room.LoadRoomMember E r userID).1 =
      if Room.guestDisabled E r userID then .error "guest is disabled"
      else
        match r.members userID with
        | some m => .ok m
        | none =>
          match (E.GetRoomMember r.db r.ID userID).1 with
          | .error err => .error ("get room member failed: " ++ err)
          | .ok rec => .ok (Room.normalize E r userID rec) := by
  unfold Room.LoadRoomMember Room.guestDisabled
  split
  · rfl
  · simp only [Room.membersLoad]
    cases hm : r.members userID with
    | some m => rfl
    | none =>
      simp only []
      cases hg : (E.GetRoomMember r.db r.ID userID).1 with
      | error err => rfl
      | ok rec =>
        simp only [Room.membersLoadOrStore, Room.record, hm]
        rfl

theorem LoadOrCreateRoomMember_result (E : Env σ μ η) (r : Room σ μ η) (userID : String) :
    (Room.LoadOrCreateRoomMember E r userID).1 =
      if r.Settings.DisableJoinNewUser then (Room.LoadRoomMember E r userID).1
      else if Room.guestDisabled E r userID then .error "guest is disabled"
      else
        match r.members userID with
        | some m => .ok m
        | none =>
          match (E.FirstOrCreateRoomMemberRelation r.db r.ID userID
              (Room.createConf E r userID)).1 with
          | .error err => .error err
          | .ok rec => .ok (Room.normalize E r userID rec) := by
  unfold Room.LoadOrCreateRoomMember Room.guestDisabled
  split
  · rfl
  · split
    · rfl
    · simp only [Room.membersLoad]
      cases hm : r.members userID with
      | some m => rfl
      | none =>
        simp only []
        cases hg : (E.FirstOrCreateRoomMemberRelation r.db r.ID userID
            (Room.createConf E r userID)).1 with
        | error err => rfl
        | ok rec =>
          simp only [Room.membersLoadOrStore, Room.record, hm]
          rfl

theorem LoadRoomMember_ok_of (E : Env σ μ η) (r : Room σ μ η) (userID : String)
    (P : RoomMember → Prop) (hP : ∀ rec, P (Room.normalize E r userID rec))
    (hcache : r.cacheResolved E) (m : RoomMember)
    (h : (Room.LoadRoomMember E r userID).1 = .ok m) : P m := by
  rw [LoadRoomMember_result] at h
  split at h
  · cases h
  · cases hm : r.members userID with
    | some c =>
      rw [hm] at h
      have hcm : c = m := by simpa using h
      rw [← hcm, ← hcache userID c hm]
      exact hP c
    | none =>
      rw [hm] at h
      cases hg : (E.GetRoomMember r.db r.ID userID).1 with
      | error err => rw [hg] at h; cases h
      | ok rec => rw [hg] at h; cases h; exact hP rec

theorem LoadOrCreateRoomMember_ok_of (E : Env σ μ η) (r : Room σ μ η) (userID : String)
    (P : RoomMember → Prop) (hP : ∀ rec, P (Room.normalize E r userID rec))
    (hcache : r.cacheResolved E) (m : RoomMember)
    (h : (Room.LoadOrCreateRoomMember E r userID).1 = .ok m) : P m := by
  rw [LoadOrCreateRoomMember_result] at h
  split at h
  · exact LoadRoomMember_ok_of E r userID P hP hcache m h
  · split at h
    · cases h
    · cases hm : r.members userID with
      | some c =>
        rw [hm] at h
        have hcm : c = m := by simpa using h
        rw [← hcm, ← hcache userID c hm]
        exact hP c
      | none =>
        rw [hm] at h
        cases hg : (E.FirstOrCreateRoomMemberRelation r.db r.ID userID
            (Room.createConf E r userID)).1 with
        | error err => rw [hg] at h; cases h
        | ok rec => rw [hg] at h; cases h; exact hP rec

theorem LoadRoomMember_succeeds (E : Env σ μ η) (r : Room σ μ η) (userID : String)
    (hgate : Room.guestDisabled E r userID = false) (rec : RoomMember)
    (hrec : (E.GetRoomMember r.db r.ID userID).1 = .ok rec) :
    ∃ m, (Room.LoadRoomMember E r userID).1 = .ok m := by
  rw [LoadRoomMember_result, hgate]
  cases hm : r.members userID with
  | some c => exact ⟨c, rfl⟩
  | none => exact ⟨Room.normalize E r userID rec, by simp [hrec]⟩

theorem LoadOrCreateRoomMember_succeeds (E : Env σ μ η) (r : Room σ μ η) (userID : String)
    (hgate : Room.guestDisabled E r userID = false) (rec : RoomMember)
    (hrec : (if r.Settings.DisableJoinNewUser then (E.GetRoomMember r.db r.ID userID).1
      else (E.FirstOrCreateRoomMemberRelation r.db r.ID userID
        (Room.createConf E r userID)).1) = .ok rec) :
    ∃ m, (Room.LoadOrCreateRoomMember E r userID).1 = .ok m := by
  rw [LoadOrCreateRoomMember_result]
  by_cases hd : r.Settings.DisableJoinNewUser = true
  · rw [if_pos hd] at hrec ⊢
    exact LoadRoomMember_succeeds E r userID hgate rec hrec
  · rw [if_neg hd] at hrec ⊢
    rw [hgate]
    cases hm : r.members userID with
    | some c => exact ⟨c, rfl⟩
    | none => exact ⟨Room.normalize E r userID rec, by simp [hrec]⟩

theorem cacheResolved_of_eq (E : Env σ μ η) (r r1 : Room σ μ η)
    (hc : r1.CreatorID = r.CreatorID) (hm : r1.members = r.members)
    (h : r.cacheResolved E) : r1.cacheResolved E := by
  intro u m hu
  have := h u m (by rw [← hm]; exact hu)
  simpa [Room.normalize, Room.IsCreator, Room.IsGuest, hc] using this

theorem cacheResolved_store (E : Env σ μ η) (r : Room σ μ η) (userID : String)
    (rec : RoomMember) (h : r.cacheResolved E) :
    (r.membersLoadOrStore userID (Room.normalize E r userID rec)).2.cacheResolved E := by
  unfold Room.membersLoadOrStore
  cases hm : r.members userID with
  | some c => exact h
  | none =>
    intro u m hu
    simp only at hu
    by_cases hk : u = userID
    · subst hk
      simp only [if_true, Option.some.injEq] at hu
      subst hu
      exact normalize_idem E r u rec
    · simp only [hk, if_false] at hu
      exact h u m hu

/-- The cache invariant holds for an empty cache and is kept by `Delete`. -/
theorem cacheResolved_delete (E : Env σ μ η) (r : Room σ μ η) (userID : String)
    (h : r.cacheResolved E) : (r.membersDelete userID).cacheResolved E := by
  intro u m hu
  simp only [Room.membersDelete] at hu
  by_cases hk : u = userID
  · simp [hk] at hu
  · simp only [hk, if_false] at hu
    exact h u m hu

/-- `Room.LoadRoomMember` keeps the cache invariant. -/
theorem LoadRoomMember_cacheResolved (E : Env σ μ η) (r : Room σ μ η) (userID : String)
    (h : r.cacheResolved E) : (Room.LoadRoomMember E r userID).2.cacheResolved E := by
  unfold Room.LoadRoomMember
  split
  · exact h
  · split
    · exact h
    · simp only []
      have h1 : ({ r with db := (E.GetRoomMember r.db r.ID userID).2 }.record
          (.GetRoomMember r.ID userID)).cacheResolved E :=
        cacheResolved_of_eq E r _ rfl rfl h
      split
      · exact h1
      · exact cacheResolved_store E _ userID _ h1

/-- `Room.LoadOrCreateRoomMember` keeps the cache invariant. -/
theorem LoadOrCreateRoomMember_cacheResolved (E : Env σ μ η) (r : Room σ μ η)
    (userID : String) (h : r.cacheResolved E) :
    (Room.LoadOrCreateRoomMember E r userID).2.cacheResolved E := by
  unfold Room.LoadOrCreateRoomMember
  split
  · exact LoadRoomMember_cacheResolved E r userID h
  · split
    · exact h
    · split
      · exact h
      · simp only []
        have h1 : ({ r with db := (E.FirstOrCreateRoomMemberRelation r.db r.ID userID
            (Room.createConf E r userID)).2 }.record
            (.FirstOrCreateRoomMemberRelation r.ID userID
              (Room.createConf E r userID))).cacheResolved E :=
          cacheResolved_of_eq E r _ rfl rfl h
        split
        · exact h1
        · exact cacheResolved_store E _ userID _ h1

/-- C3: in every room whose member cache holds only what resolution stored, resolving the
creator through `Room.LoadRoomMember` or `Room.LoadOrCreateRoomMember` yields Role=Creator,
Permissions=AllPermissions, AdminPermissions=AllAdminPermissions and Status=Active whenever
it yields a member, and it does yield one for every record storage returns (the creator not
being a guest whose access is disabled), whatever that record holds. -/
theorem creator_resolves_as_creator (E : Env σ μ η) (r : Room σ μ η)
    (hcache : r.cacheResolved E)
    (hgate : Room.guestDisabled E r r.CreatorID = false) :
    (∀ m, (Room.LoadRoomMember E r r.CreatorID).1 = .ok m → m.resolvedAsCreator) ∧
    (∀ m, (Room.LoadOrCreateRoomMember E r r.CreatorID).1 = .ok m → m.resolvedAsCreator) ∧
    (∀ rec, (E.GetRoomMember r.db r.ID r.CreatorID).1 = .ok rec →
      ∃ m, (Room.LoadRoomMember E r r.CreatorID).1 = .ok m ∧ m.resolvedAsCreator) ∧
    (∀ rec, (if r.Settings.DisableJoinNewUser then (E.GetRoomMember r.db r.ID r.CreatorID).1
        else (E.FirstOrCreateRoomMemberRelation r.db r.ID r.CreatorID
          (Room.createConf E r r.CreatorID)).1) = .ok rec →
      ∃ m, (Room.LoadOrCreateRoomMember E r r.CreatorID).1 = .ok m ∧ m.resolvedAsCreator) := by
  have h1 : ∀ m, (Room.LoadRoomMember E r r.CreatorID).1 = .ok m → m.resolvedAsCreator :=
    LoadRoomMember_ok_of E r r.CreatorID _ (normalize_creator E r) hcache
  have h2 : ∀ m, (Room.LoadOrCreateRoomMember E r r.CreatorID).1 = .ok m →
      m.resolvedAsCreator :=
    LoadOrCreateRoomMember_ok_of E r r.CreatorID _ (normalize_creator E r) hcache
  refine ⟨h1, h2, ?_, ?_⟩
  · intro rec hrec
    obtain ⟨m, hm⟩ := LoadRoomMember_succeeds E r r.CreatorID hgate rec hrec
    exact ⟨m, hm, h1 m hm⟩
  · intro rec hrec
    obtain ⟨m, hm⟩ := LoadOrCreateRoomMember_succeeds E r r.CreatorID hgate rec hrec
    exact ⟨m, hm, h2 m hm⟩

/-- C3 at a concrete input: storage holds a banned Member record without permissions for
"carol", the creator of "r1"; loading her yields a member resolved as the creator. -/
theorem creator_resolves_as_creator_witness :
    (demoEnv false).GetRoomMember demoRoom.db "r1" "carol" =
      (.ok { RoomID := "r1", UserID := "carol", Status := .Banned, Role := .Member,
             Permissions := 0, AdminPermissions := 0 }, demoRoom.db) ∧
    ∃ m, (Room.LoadRoomMember (demoEnv false) demoRoom "carol").1 = .ok m ∧
      m.resolvedAsCreator :=
  ⟨rfl, (creator_resolves_as_creator (demoEnv false) demoRoom
    (by intro u m h; cases h) (by decide)).2.2.1 _ rfl⟩

/-- C4: for the guest user ID, if the room's DisableGuest is on or the global EnableGuest is
off, `Room.LoadRoomMember` and `Room.LoadOrCreateRoomMember` return the error "guest is
disabled", no member, and leave the room as it was.  Otherwise, in a room whose creator is not
the guest and whose cache holds only what resolution stored, the guest resolves to
Status=Active, Permissions=NoPermission, Role=Member whenever a member is returned, and one
is returned for every record storage returns, whatever it holds. -/
theorem guest_resolution (E : Env σ μ η) (r : Room σ μ η) :
    if (r.Settings.DisableGuest || !r.EnableGuest) = true then
      Room.LoadRoomMember E r E.GuestUserID = (.error "guest is disabled", r) ∧
      Room.LoadOrCreateRoomMember E r E.GuestUserID = (.error "guest is disabled", r)
    else
      r.cacheResolved E → r.CreatorID ≠ E.GuestUserID →
      (∀ m, (Room.LoadRoomMember E r E.GuestUserID).1 = .ok m → m.resolvedAsGuest) ∧
      (∀ m, (Room.LoadOrCreateRoomMember E r E.GuestUserID).1 = .ok m → m.resolvedAsGuest) ∧
      (∀ rec, (E.GetRoomMember r.db r.ID E.GuestUserID).1 = .ok rec →
        ∃ m, (Room.LoadRoomMember E r E.GuestUserID).1 = .ok m ∧ m.resolvedAsGuest) ∧
      (∀ rec, (if r.Settings.DisableJoinNewUser then
            (E.GetRoomMember r.db r.ID E.GuestUserID).1
          else (E.FirstOrCreateRoomMemberRelation r.db r.ID E.GuestUserID
            (Room.createConf E r E.GuestUserID)).1) = .ok rec →
        ∃ m, (Room.LoadOrCreateRoomMember E r E.GuestUserID).1 = .ok m ∧
          m.resolvedAsGuest) := by
  split
  · next hoff =>
    have hl : Room.LoadRoomMember E r E.GuestUserID = (.error "guest is disabled", r) := by
      unfold Room.LoadRoomMember
      rw [if_pos]
      simpa [Room.IsGuest] using hoff
    refine ⟨hl, ?_⟩
    unfold Room.LoadOrCreateRoomMember
    split
    · exact hl
    · rw [if_pos]
      simpa [Room.IsGuest] using hoff
  · next hon =>
    intro hcache hne
    have hgate : Room.guestDisabled E r E.GuestUserID = false := by
      rw [Bool.not_eq_true] at hon
      simp [Room.guestDisabled, hon]
    have h1 : ∀ m, (Room.LoadRoomMember E r E.GuestUserID).1 = .ok m → m.resolvedAsGuest :=
      LoadRoomMember_ok_of E r E.GuestUserID _ (fun rec => normalize_guest E r rec hne) hcache
    have h2 : ∀ m, (Room.LoadOrCreateRoomMember E r E.GuestUserID).1 = .ok m →
        m.resolvedAsGuest :=
      LoadOrCreateRoomMember_ok_of E r E.GuestUserID _
        (fun rec => normalize_guest E r rec hne) hcache
    refine ⟨h1, h2, ?_, ?_⟩
    · intro rec hrec
      obtain ⟨m, hm⟩ := LoadRoomMember_succeeds E r E.GuestUserID hgate rec hrec
      exact ⟨m, hm, h1 m hm⟩
    · intro rec hrec
      obtain ⟨m, hm⟩ := LoadOrCreateRoomMember_succeeds E r E.GuestUserID hgate rec hrec
      exact ⟨m, hm, h2 m hm⟩

/-- C4 at concrete inputs: with guest access switched off globally both methods fail for
"guest"; in "r1", where it is on and storage holds a banned Admin record for "guest", loading
or creating the guest yields a member resolved as a guest. -/
theorem guest_resolution_witness :
    (Room.LoadRoomMember (demoEnv false) demoRoomNoGuest "guest" =
        (.error "guest is disabled", demoRoomNoGuest) ∧
      Room.LoadOrCreateRoomMember (demoEnv false) demoRoomNoGuest "guest" =
        (.error "guest is disabled", demoRoomNoGuest)) ∧
    ∃ m, (Room.LoadOrCreateRoomMember (demoEnv false) demoRoom "guest").1 = .ok m ∧
      m.resolvedAsGuest :=
  ⟨guest_resolution (demoEnv false) demoRoomNoGuest,
   (guest_resolution (demoEnv false) demoRoom (by intro u m h; cases h)
      (by decide)).2.2.2 _ rfl⟩

/-! ## Current-movie protection -/

/-- C5: in a room whose current state references movie `c`, `Room.UpdateMovie c`,
`Room.DeleteMovieByID c` and `Room.DeleteMoviesByID ids` with `c` among `ids` return an error
and leave the whole room as it was (no call reaches the movie list, the list and the current
state are unchanged); for an id different from `c`, or ids not containing `c`, the result is
the movie list's own result of the delegated call. -/
theorem current_movie_protected (E : Env σ μ η) (r : Room σ μ η) (c : String)
    (hcur : r.current.MovieID = c) (hc : c ≠ "") :
    (∀ movie, Room.UpdateMovie E r c movie = (some "cannot update current movie", r)) ∧
    Room.DeleteMovieByID E r c = (some "cannot delete current movie", r) ∧
    (∀ ids, c ∈ ids → Room.DeleteMoviesByID E r ids = (some "cannot delete current movie", r)) ∧
    (∀ id movie, id ≠ c → Room.UpdateMovie E r id movie =
      ((E.moviesUpdate r.movies id movie).1,
       { r with movies := (E.moviesUpdate r.movies id movie).2,
                trace := r.trace ++ [.moviesUpdate id movie] })) ∧
    (∀ id, id ≠ c → Room.DeleteMovieByID E r id =
      ((E.moviesDeleteMovieByID r.movies id).1,
       { r with movies := (E.moviesDeleteMovieByID r.movies id).2,
                trace := r.trace ++ [.moviesDeleteMovieByID id] })) ∧
    (∀ ids, c ∉ ids → Room.DeleteMoviesByID E r ids =
      ((E.moviesDeleteMoviesByID r.movies ids).1,
       { r with movies := (E.moviesDeleteMoviesByID r.movies ids).2,
                trace := r.trace ++ [.moviesDeleteMoviesByID ids] })) := by
  refine ⟨?_, ?_, ?_, ?_, ?_, ?_⟩
  · intro movie
    simp [Room.UpdateMovie, hcur]
  · simp [Room.DeleteMovieByID, hcur]
  · intro ids hmem
    have hany : ids.any (fun id => id == c) = true := by
      rw [List.any_eq_true]
      exact ⟨c, hmem, by simp⟩
    simp [Room.DeleteMoviesByID, hcur, hc, hany]
  · intro id movie hne
    have : ¬ c = id := fun h => hne h.symm
    simp [Room.UpdateMovie, hcur, this, Room.record]
  · intro id hne
    have : ¬ c = id := fun h => hne h.symm
    simp [Room.DeleteMovieByID, hcur, this, Room.record]
  · intro ids hnot
    have hany : ids.any (fun id => id == c) = false := by
      rw [List.any_eq_false]
      intro x hx hxc
      exact hnot (by rw [← (beq_iff_eq).1 hxc]; exact hx)
    simp [Room.DeleteMoviesByID, hcur, hany, Room.record]

/-- C5 at a concrete input: "m1" is the current movie of "r1"; deleting "m1" together with
"m2" is refused and the room is as before. -/
theorem current_movie_protected_witness :
    demoRoom.current.MovieID = "m1" ∧
    Room.DeleteMoviesByID (demoEnv false) demoRoom ["m2", "m1"] =
      (some "cannot delete current movie", demoRoom) :=
  ⟨rfl, (current_movie_protected (demoEnv false) demoRoom "m1" rfl (by decide)).2.2.1
    ["m2", "m1"] (by decide)⟩

/-- C6: after `Room.ClearMovies` the current movie ID is empty, for every room and every
outcome of the movie list's `Clear`: the pointer is cleared first (that step cannot fail),
the list is cleared on the state so obtained, and the returned error is the list's. -/
theorem ClearMovies_current_empty (E : Env σ μ η) (r : Room σ μ η) :
    (Room.ClearMovies E r).2.CurrentMovieID = "" ∧
    (∃ r1, Room.SetCurrentMovie E r "" false = (none, r1) ∧ r1.CurrentMovieID = "" ∧
      r1.movies = r.movies ∧ r1.trace = r.trace ∧
      Room.ClearMovies E r =
        ((E.moviesClear r1.movies).1,
         { r1 with movies := (E.moviesClear r1.movies).2,
                   trace := r1.trace ++ [.moviesClear] })) ∧
    (Room.ClearMovies E r).1 = (E.moviesClear r.movies).1 := by
  refine ⟨?_, ⟨(Room.SetCurrentMovie E r "" false).2, ?_, ?_, ?_, ?_, ?_⟩, ?_⟩ <;>
    simp [Room.ClearMovies, Room.SetCurrentMovie, Room.CurrentMovieID, Current.SetMovie,
      Room.record]

/-- C7: `Room.SetCurrentMovie` with the empty ID clears the current movie and returns no
error; with a non-empty ID the movie list does not know it returns the lookup error and
leaves the current state unchanged; with an ID the list knows it returns no error and sets
the current state to that movie's ID and live flag with the given play intent. -/
theorem SetCurrentMovie_cases (E : Env σ μ η) (r : Room σ μ η) (play : Bool) :
    ((Room.SetCurrentMovie E r "" play).1 = none ∧
      (Room.SetCurrentMovie E r "" play).2.current =
        { MovieID := "", IsLive := false,
          Status := { Playing := play, Seek := 0, Rate := 1, lastUpdate := r.now } }) ∧
    (∀ movieID err, movieID ≠ "" → E.moviesGetMovieByID r.movies movieID = .error err →
      (Room.SetCurrentMovie E r movieID play).1 = some err ∧
      (Room.SetCurrentMovie E r movieID play).2.current = r.current) ∧
    (∀ movieID m, movieID ≠ "" → E.moviesGetMovieByID r.movies movieID = .ok m →
      (Room.SetCurrentMovie E r movieID play).1 = none ∧
      (Room.SetCurrentMovie E r movieID play).2.current =
        { MovieID := m.ID, IsLive := m.Base.Live,
          Status := { Playing := play, Seek := 0, Rate := 1, lastUpdate := r.now } }) := by
  refine ⟨?_, ?_, ?_⟩
  · simp [Room.SetCurrentMovie, Current.SetMovie]
  · intro movieID err hne hlook
    simp [Room.SetCurrentMovie, Room.GetMovieByID, hne, hlook, Room.record]
  · intro movieID m hne hlook
    simp [Room.SetCurrentMovie, Room.GetMovieByID, hne, hlook, Room.record, Current.SetMovie]

/-- C7 at concrete inputs: in "r1", "m9" is not in the list and "m2" is a live movie. -/
theorem SetCurrentMovie_cases_witness :
    ((Room.SetCurrentMovie (demoEnv false) demoRoom "m9" true).1 = some "movie not found" ∧
      (Room.SetCurrentMovie (demoEnv false) demoRoom "m9" true).2.current =
        demoRoom.current) ∧
    ((Room.SetCurrentMovie (demoEnv false) demoRoom "m2" true).1 = none ∧
      (Room.SetCurrentMovie (demoEnv false) demoRoom "m2" true).2.current =
        { MovieID := "m2", IsLive := true,
          Status := { Playing := true, Seek := 0, Rate := 1, lastUpdate := 7 } }) :=
  ⟨(SetCurrentMovie_cases (demoEnv false) demoRoom true).2.1 "m9" "movie not found"
      (by decide) rfl,
   (SetCurrentMovie_cases (demoEnv false) demoRoom true).2.2 "m2"
      { ID := "m2", RoomID := "r1", Base := { Url := "u2", Name := "two", Live := true } }
      (by decide) rfl⟩

/-! ## Password -/

/-- The in-memory hash is assigned before storage is called: whenever `Room.SetPassword`
gets past the same-password test and the hashing, the room's hash afterwards is the new one,
whatever storage answers. -/
theorem storeHashedPassword_hash (E : Env σ μ η) (r : Room σ μ η) (hashedPassword : List Nat) :
    (Room.storeHashedPassword E r hashedPassword).2.HashedPassword = hashedPassword ∧
    (Room.storeHashedPassword E r hashedPassword).1 =
      (E.SetRoomHashedPassword r.db r.ID hashedPassword).1 := by
  simp [Room.storeHashedPassword, Room.record]

/-- C8 fails on the code: room "r1" has no password and storage rejects every write;
`Room.SetPassword "secret"` returns the storage error, yet the in-memory hash is no longer
the one from before the call but the new hash. -/
theorem SetPassword_storage_error_changes_hash :
    (demoEnv true).SetRoomHashedPassword demoRoom.db "r1" (demoHash "secret") =
      (some "storage unavailable", demoRoom.db) ∧
    (Room.SetPassword (demoEnv true) demoRoom "secret").1 = some "storage unavailable" ∧
    (Room.SetPassword (demoEnv true) demoRoom "secret").2.HashedPassword = demoHash "secret" ∧
    (Room.SetPassword (demoEnv true) demoRoom "secret").2.HashedPassword ≠
      demoRoom.HashedPassword := by
  refine ⟨rfl, rfl, rfl, ?_⟩
  have h : (Room.SetPassword (demoEnv true) demoRoom "secret").2.HashedPassword =
      demoHash "secret" := rfl
  rw [h]
  decide

/-! ## Member administration -/

/-- C9: `Room.BanMember`, `Room.UnbanMember`, `Room.SetAdmin` and `Room.SetMember` called with
the creator's user ID return an error and the room exactly as it was: the trace has no new
call (no storage call, no hub kick), and the member cache, the hub and the storage state are
unchanged. -/
theorem creator_immune (E : Env σ μ η) (r : Room σ μ η) :
    Room.BanMember E r r.CreatorID = (some "you are creator, cannot ban", r) ∧
    Room.UnbanMember E r r.CreatorID = (some "you are creator, cannot unban", r) ∧
    (∀ permissions, Room.SetAdmin E r r.CreatorID permissions =
      (some "you are creator, cannot set admin", r)) ∧
    (∀ permissions, Room.SetMember E r r.CreatorID permissions =
      (some "you are creator, cannot set member", r)) := by
  simp [Room.BanMember, Room.UnbanMember, Room.SetAdmin, Room.SetMember, Room.IsCreator]

theorem invalidated_delete (r r1 : Room σ μ η) (userID : String)
    (h : r1.members = r.members) : r.invalidated (r1.membersDelete userID) userID := by
  constructor
  · simp [Room.membersDelete]
  · intro k hk
    simp [Room.membersDelete, hk, h]

/-- C10: for every user ID other than the creator's and whatever the storage call answers,
after each of the eleven member-administration methods the member cache has no entry for
that user and every other entry is as before, and the method returns the storage call's
answer; `Room.BanMember` moreover kicks the user from the hub, after the storage call. -/
theorem mutation_invalidates_cache (E : Env σ μ η) (r : Room σ μ η) (userID : String)
    (hne : r.CreatorID ≠ userID) :
    (∀ p, r.invalidated (Room.SetMemberPermissions E r userID p).2 userID ∧
      (Room.SetMemberPermissions E r userID p).1 =
        (E.SetMemberPermissions r.db r.ID userID p).1) ∧
    (∀ p, r.invalidated (Room.AddMemberPermissions E r userID p).2 userID ∧
      (Room.AddMemberPermissions E r userID p).1 =
        (E.AddMemberPermissions r.db r.ID userID p).1) ∧
    (∀ p, r.invalidated (Room.RemoveMemberPermissions E r userID p).2 userID ∧
      (Room.RemoveMemberPermissions E r userID p).1 =
        (E.RemoveMemberPermissions r.db r.ID userID p).1) ∧
    (r.invalidated (Room.ApprovePendingMember E r userID).2 userID ∧
      (Room.ApprovePendingMember E r userID).1 =
        (E.RoomApprovePendingMember r.db r.ID userID).1) ∧
    (r.invalidated (Room.BanMember E r userID).2 userID ∧
      (Room.BanMember E r userID).1 = (E.RoomBanMember r.db r.ID userID).1 ∧
      (Room.BanMember E r userID).2.hub = E.KickUser r.hub userID ∧
      (Room.BanMember E r userID).2.trace =
        r.trace ++ [.RoomBanMember r.ID userID, .KickUser userID]) ∧
    (r.invalidated (Room.UnbanMember E r userID).2 userID ∧
      (Room.UnbanMember E r userID).1 = (E.RoomUnbanMember r.db r.ID userID).1) ∧
    (∀ p, r.invalidated (Room.SetAdminPermissions E r userID p).2 userID ∧
      (Room.SetAdminPermissions E r userID p).1 =
        (E.RoomSetAdminPermissions r.db r.ID userID p).1) ∧
    (∀ p, r.invalidated (Room.AddAdminPermissions E r userID p).2 userID ∧
      (Room.AddAdminPermissions E r userID p).1 =
        (E.RoomSetAdminPermissions r.db r.ID userID p).1) ∧
    (∀ p, r.invalidated (Room.RemoveAdminPermissions E r userID p).2 userID ∧
      (Room.RemoveAdminPermissions E r userID p).1 =
        (E.RoomSetAdminPermissions r.db r.ID userID 0).1) ∧
    (∀ p, r.invalidated (Room.SetAdmin E r userID p).2 userID ∧
      (Room.SetAdmin E r userID p).1 = (E.RoomSetAdmin r.db r.ID userID p).1) ∧
    (∀ p, r.invalidated (Room.SetMember E r userID p).2 userID ∧
      (Room.SetMember E r userID p).1 = (E.RoomSetMember r.db r.ID userID p).1) := by
  have hc : r.IsCreator userID = false := by
    simp [Room.IsCreator, hne]
  refine ⟨?_, ?_, ?_, ?_, ?_, ?_, ?_, ?_, ?_, ?_, ?_⟩
  · intro p
    exact ⟨invalidated_delete r _ userID rfl, rfl⟩
  · intro p
    exact ⟨invalidated_delete r _ userID rfl, rfl⟩
  · intro p
    exact ⟨invalidated_delete r _ userID rfl, rfl⟩
  · exact ⟨invalidated_delete r _ userID rfl, rfl⟩
  · unfold Room.BanMember
    rw [hc]
    refine ⟨?_, rfl, rfl, ?_⟩
    · constructor
      · simp [Room.membersDelete, Room.record]
      · intro k hk
        simp [Room.membersDelete, Room.record, hk]
    · simp [Room.membersDelete, Room.record]
  · unfold Room.UnbanMember
    rw [hc]
    exact ⟨invalidated_delete r _ userID rfl, rfl⟩
  · intro p
    exact ⟨invalidated_delete r _ userID rfl, rfl⟩
  · intro p
    exact ⟨invalidated_delete r _ userID rfl, rfl⟩
  · intro p
    exact ⟨invalidated_delete r _ userID rfl, rfl⟩
  · intro p
    unfold Room.SetAdmin
    rw [hc]
    exact ⟨invalidated_delete r _ userID rfl, rfl⟩
  · intro p
    unfold Room.SetMember
    rw [hc]
    exact ⟨invalidated_delete r _ userID rfl, rfl⟩

/-- C10 at a concrete input: "alice" and "bob" are cached, storage rejects the ban of "bob";
the error is returned, "bob" has left the cache and the hub, and the entry of "alice" is as
before. -/
theorem mutation_invalidates_cache_witness :
    (Room.BanMember (demoEnv true) demoRoomCached "bob").1 = some "storage unavailable" ∧
    demoRoomCached.members "bob" ≠ none ∧
    (Room.BanMember (demoEnv true) demoRoomCached "bob").2.members "bob" = none ∧
    (Room.BanMember (demoEnv true) demoRoomCached "bob").2.members "alice" =
      demoRoomCached.members "alice" ∧
    (Room.BanMember (demoEnv true) demoRoomCached "bob").2.hub = ["alice"] :=
  have h := (mutation_invalidates_cache (demoEnv true) demoRoomCached "bob"
    (by decide)).2.2.2.2.1
  ⟨h.2.1, by decide, h.1.1, h.1.2 "alice" (by decide), h.2.2.1⟩

/-! ## Load-or-create for a regular user -/

theorem normalize_regular (E : Env σ μ η) (r : Room σ μ η) (userID : String)
    (rec : RoomMember) (hcre : r.CreatorID ≠ userID) (hguest : userID ≠ E.GuestUserID) :
    Room.normalize E r userID rec = resolveRegular rec := by
  simp [Room.normalize, Room.IsCreator, Room.IsGuest, resolveRegular, hcre, hguest]

theorem createConf_regular (E : Env σ μ η) (r : Room σ μ η) (userID : String)
    (hcre : r.CreatorID ≠ userID) (hguest : userID ≠ E.GuestUserID) :
    Room.createConf E r userID = regularConf r.Settings := by
  unfold Room.createConf regularConf
  by_cases hj : r.Settings.JoinNeedReview = true <;>
    simp [Room.IsCreator, Room.IsGuest, hcre, hguest, hj]

theorem LoadRoomMember_miss (E : Env σ μ η) (r : Room σ μ η) (userID : String)
    (hguest : userID ≠ E.GuestUserID) (hmiss : r.members userID = none) :
    Room.LoadRoomMember E r userID =
      match (E.GetRoomMember r.db r.ID userID).1 with
      | .error err =>
        (.error ("get room member failed: " ++ err),
         { r with db := (E.GetRoomMember r.db r.ID userID).2,
                  trace := r.trace ++ [.GetRoomMember r.ID userID] })
      | .ok rec =>
        (.ok (Room.normalize E r userID rec),
         { r with db := (E.GetRoomMember r.db r.ID userID).2,
                  trace := r.trace ++ [.GetRoomMember r.ID userID],
                  members := fun k =>
                    if k = userID then some (Room.normalize E r userID rec)
                    else r.members k }) := by
  have hg : Room.IsGuest E r userID = false := by simp [Room.IsGuest, hguest]
  unfold Room.LoadRoomMember
  simp only [hg, Bool.false_and, Bool.false_eq_true, if_false, Room.membersLoad, hmiss]
  cases h : (E.GetRoomMember r.db r.ID userID).1 with
  | error err => rfl
  | ok rec =>
    simp only [Room.membersLoadOrStore, Room.record, hmiss]
    rfl

theorem LoadOrCreateRoomMember_miss (E : Env σ μ η) (r : Room σ μ η) (userID : String)
    (hopen : r.Settings.DisableJoinNewUser = false)
    (hguest : userID ≠ E.GuestUserID) (hmiss : r.members userID = none) :
    Room.LoadOrCreateRoomMember E r userID =
      match (E.FirstOrCreateRoomMemberRelation r.db r.ID userID
          (Room.createConf E r userID)).1 with
      | .error err =>
        (.error err,
         { r with db := (E.FirstOrCreateRoomMemberRelation r.db r.ID userID
                    (Room.createConf E r userID)).2,
                  trace := r.trace ++ [.FirstOrCreateRoomMemberRelation r.ID userID
                    (Room.createConf E r userID)] })
      | .ok rec =>
        (.ok (Room.normalize E r userID rec),
         { r with db := (E.FirstOrCreateRoomMemberRelation r.db r.ID userID
                    (Room.createConf E r userID)).2,
                  trace := r.trace ++ [.FirstOrCreateRoomMemberRelation r.ID userID
                    (Room.createConf E r userID)],
                  members := fun k =>
                    if k = userID then some (Room.normalize E r userID rec)
                    else r.members k }) := by
  have hg : Room.IsGuest E r userID = false := by simp [Room.IsGuest, hguest]
  unfold Room.LoadOrCreateRoomMember
  simp only [hopen, hg, Bool.false_and, Bool.false_eq_true, if_false, Room.membersLoad, hmiss]
  cases h : (E.FirstOrCreateRoomMemberRelation r.db r.ID userID
      (Room.createConf E r userID)).1 with
  | error err => rfl
  | ok rec =>
    simp only [Room.membersLoadOrStore, Room.record, hmiss]
    rfl

/-- C11: for a regular user (neither creator nor guest) without a cached entry,
`Room.LoadOrCreateRoomMember` in a room with `DisableJoinNewUser` only loads: its one storage
call is `GetRoomMember`, never a create, and it fails when storage has no record.  Otherwise
its one storage call is the create with the room's `UserDefaultPermissions` and status Pending
under `JoinNeedReview`, Active without; the record storage returns is resolved, returned, and
stored in the member cache under the user's ID, the other entries staying as they were. -/
theorem regular_user_load_or_create (E : Env σ μ η) (r : Room σ μ η) (userID : String)
    (hcre : r.CreatorID ≠ userID) (hguest : userID ≠ E.GuestUserID)
    (hmiss : r.members userID = none) :
    if r.Settings.DisableJoinNewUser = true then
      (Room.LoadOrCreateRoomMember E r userID).2.trace =
        r.trace ++ [.GetRoomMember r.ID userID] ∧
      (∀ err, (E.GetRoomMember r.db r.ID userID).1 = .error err →
        (Room.LoadOrCreateRoomMember E r userID).1 =
          .error ("get room member failed: " ++ err) ∧
        (Room.LoadOrCreateRoomMember E r userID).2.members = r.members) ∧
      (∀ rec, (E.GetRoomMember r.db r.ID userID).1 = .ok rec →
        (Room.LoadOrCreateRoomMember E r userID).1 = .ok (resolveRegular rec) ∧
        (Room.LoadOrCreateRoomMember E r userID).2.members userID =
          some (resolveRegular rec))
    else
      (Room.LoadOrCreateRoomMember E r userID).2.trace =
        r.trace ++ [.FirstOrCreateRoomMemberRelation r.ID userID
          [.WithRoomMemberRelationPermissions r.Settings.UserDefaultPermissions,
           .WithRoomMemberStatus (if r.Settings.JoinNeedReview then .Pending else .Active)]] ∧
      (∀ rec, (E.FirstOrCreateRoomMemberRelation r.db r.ID userID
          (regularConf r.Settings)).1 = .ok rec →
        (Room.LoadOrCreateRoomMember E r userID).1 = .ok (resolveRegular rec) ∧
        (Room.LoadOrCreateRoomMember E r userID).2.members userID =
          some (resolveRegular rec) ∧
        ∀ k, k ≠ userID →
          (Room.LoadOrCreateRoomMember E r userID).2.members k = r.members k) ∧
      (∀ err, (E.FirstOrCreateRoomMemberRelation r.db r.ID userID
          (regularConf r.Settings)).1 = .error err →
        (Room.LoadOrCreateRoomMember E r userID).1 = .error err ∧
        (Room.LoadOrCreateRoomMember E r userID).2.members = r.members) := by
  split
  · next hd =>
    have hl : Room.LoadOrCreateRoomMember E r userID = Room.LoadRoomMember E r userID := by
      unfold Room.LoadOrCreateRoomMember
      rw [if_pos hd]
    rw [hl, LoadRoomMember_miss E r userID hguest hmiss]
    refine ⟨?_, ?_, ?_⟩
    · cases h : (E.GetRoomMember r.db r.ID userID).1 <;> rfl
    · intro err herr
      rw [herr]
      exact ⟨rfl, rfl⟩
    · intro rec hrec
      simp only [hrec, normalize_regular E r userID _ hcre hguest]
      exact ⟨by simp, by simp⟩
  · next hd =>
    rw [Bool.not_eq_true] at hd
    rw [LoadOrCreateRoomMember_miss E r userID hd hguest hmiss,
      createConf_regular E r userID hcre hguest]
    refine ⟨?_, ?_, ?_⟩
    · cases h : (E.FirstOrCreateRoomMemberRelation r.db r.ID userID
          (regularConf r.Settings)).1 <;> rfl
    · intro rec hrec
      simp only [hrec, normalize_regular E r userID _ hcre hguest]
      refine ⟨by simp, by simp, ?_⟩
      intro k hk
      simp [hk]
    · intro err herr
      rw [herr]
      exact ⟨rfl, rfl⟩

/-- C11 at concrete inputs: "dave" has no record and no cached entry.  In the room closed to
new users the load fails; in "r1" he is created Active with the default permissions 65 and
cached; in the room with join review the create asks for status Pending. -/
theorem regular_user_load_or_create_witness :
    (Room.LoadOrCreateRoomMember (demoEnv false) demoRoomClosed "dave").1 =
        .error "get room member failed: record not found" ∧
    ((Room.LoadOrCreateRoomMember (demoEnv false) demoRoom "dave").1 =
        .ok { RoomID := "r1", UserID := "dave", Status := .Active, Role := .Member,
              Permissions := 65, AdminPermissions := 0 } ∧
      (Room.LoadOrCreateRoomMember (demoEnv false) demoRoom "dave").2.members "dave" =
        some { RoomID := "r1", UserID := "dave", Status := .Active, Role := .Member,
               Permissions := 65, AdminPermissions := 0 }) ∧
    (Room.LoadOrCreateRoomMember (demoEnv false) demoRoomReview "dave").2.trace =
      [.FirstOrCreateRoomMemberRelation "r1" "dave"
        [.WithRoomMemberRelationPermissions 65, .WithRoomMemberStatus .Pending]] :=
  have hclosed := regular_user_load_or_create (demoEnv false) demoRoomClosed "dave"
    (by decide) (by decide) rfl
  have hopen := regular_user_load_or_create (demoEnv false) demoRoom "dave"
    (by decide) (by decide) rfl
  have hreview := regular_user_load_or_create (demoEnv false) demoRoomReview "dave"
    (by decide) (by decide) rfl
  ⟨(hclosed.2.1 "record not found" rfl).1,
   ⟨(hopen.2.1 _ rfl).1, (hopen.2.1 _ rfl).2.1⟩,
   hreview.1⟩

/-! ## Admin permissions -/

/-- C12: `Room.AddAdminPermissions u p` does exactly what `Room.SetAdminPermissions u p` does:
its one storage call is `RoomSetAdminPermissions` with `p` itself, with the same result and
successor state; and `Room.RemoveAdminPermissions u p` does what `Room.SetAdminPermissions u 0`
does, its storage call carrying 0 whatever `p` is. -/
theorem admin_permissions_add_remove_are_set (E : Env σ μ η) (r : Room σ μ η)
    (userID : String) (p : RoomAdminPermission) :
    Room.AddAdminPermissions E r userID p = Room.SetAdminPermissions E r userID p ∧
    (Room.AddAdminPermissions E r userID p).2.trace =
      r.trace ++ [.RoomSetAdminPermissions r.ID userID p] ∧
    (Room.AddAdminPermissions E r userID p).1 =
      (E.RoomSetAdminPermissions r.db r.ID userID p).1 ∧
    Room.RemoveAdminPermissions E r userID p = Room.SetAdminPermissions E r userID 0 ∧
    (Room.RemoveAdminPermissions E r userID p).2.trace =
      r.trace ++ [.RoomSetAdminPermissions r.ID userID 0] ∧
    (Room.RemoveAdminPermissions E r userID p).1 =
      (E.RoomSetAdminPermissions r.db r.ID userID 0).1 := by
  refine ⟨rfl, ?_, rfl, rfl, ?_, rfl⟩
  · simp [Room.AddAdminPermissions, Room.membersDelete, Room.record]
  · simp [Room.RemoveAdminPermissions, Room.membersDelete, Room.record]

/-! ## Version -/

theorem crc32Bit_lt (crc : Nat) (h : crc < 2 ^ 32) : crc32Bit crc < 2 ^ 32 := by
  unfold crc32Bit
  split
  · exact Nat.xor_lt_two_pow (by omega) (by norm_num)
  · omega

theorem crc32Byte_lt (crc b : Nat) (h : crc < 2 ^ 32) : crc32Byte crc b < 2 ^ 32 := by
  unfold crc32Byte
  have h0 : crc ^^^ (b % 256) < 2 ^ 32 := Nat.xor_lt_two_pow h (by omega)
  have step : ∀ n x, x < 2 ^ 32 → crc32Bit^[n] x < 2 ^ 32 := by
    intro n
    induction n with
    | zero => intro x hx; exact hx
    | succ k ih =>
      intro x hx
      rw [Function.iterate_succ_apply]
      exact ih _ (crc32Bit_lt x hx)
  exact step 8 _ h0

/-- The checksum fits the 32-bit version field. -/
theorem ChecksumIEEE_lt (data : List Nat) : ChecksumIEEE data < 2 ^ 32 := by
  unfold ChecksumIEEE
  have fold : ∀ (l : List Nat) (x : Nat), x < 2 ^ 32 → l.foldl crc32Byte x < 2 ^ 32 := by
    intro l
    induction l with
    | nil => intro x hx; exact hx
    | cons b t ih =>
      intro x hx
      rw [List.foldl_cons]
      exact ih _ (crc32Byte_lt x b hx)
  exact Nat.xor_lt_two_pow (fold data _ (by norm_num)) (by norm_num)

set_option maxRecDepth 100000 in
/-- The standard check value of CRC-32/IEEE: the checksum of the ASCII digits "123456789". -/
theorem ChecksumIEEE_check_value :
    ChecksumIEEE [49, 50, 51, 52, 53, 54, 55, 56, 57] = 0xCBF43926 := by
  decide

/-- C13: in a room that has a password, when `Room.SetPassword ""` succeeds the password is
cleared while `Room.Version` is what it was, so `Room.CheckVersion` still accepts the version
read before the call.  For any password, the version changes only if the password is not
empty and was hashed, and then it is the CRC-32/IEEE checksum of the new hash; and a
non-empty password that passes the same-password test and is hashed does set the version to
that checksum, whatever storage answers. -/
theorem SetPassword_version (E : Env σ μ η) (r : Room σ μ η) :
    (r.NeedPassword = true → (Room.SetPassword E r "").1 = none →
      (Room.SetPassword E r "").2.Version = r.Version ∧
      (Room.SetPassword E r "").2.CheckVersion r.Version = true ∧
      (Room.SetPassword E r "").2.HashedPassword = [] ∧
      (Room.SetPassword E r "").2.HashedPassword ≠ r.HashedPassword) ∧
    (∀ password, (Room.SetPassword E r password).2.Version ≠ r.Version →
      password ≠ "" ∧
      ∃ h, E.GenerateFromPassword password = .ok h ∧
        (Room.SetPassword E r password).2.Version = ChecksumIEEE h) ∧
    (∀ password h, password ≠ "" →
      (E.CheckPassword r.HashedPassword password && r.NeedPassword) = false →
      E.GenerateFromPassword password = .ok h →
      (Room.SetPassword E r password).2.Version = ChecksumIEEE h ∧
      (Room.SetPassword E r password).2.HashedPassword = h) := by
  refine ⟨?_, ?_, ?_⟩
  · intro hpw hok
    have hne : r.HashedPassword ≠ [] := by
      intro hnil
      simp [Room.NeedPassword, hnil] at hpw
    by_cases hsame : (E.CheckPassword r.HashedPassword "" && r.NeedPassword) = true
    · simp [Room.SetPassword, hsame] at hok
    · have hres : Room.SetPassword E r "" = Room.storeHashedPassword E r [] := by
        simp [Room.SetPassword, hsame]
      rw [hres]
      refine ⟨rfl, ?_, rfl, ?_⟩
      · simp [Room.CheckVersion, Room.Version, Room.storeHashedPassword, Room.record]
      · intro h
        exact hne h.symm
  · intro password hchg
    by_cases hsame : (E.CheckPassword r.HashedPassword password && r.NeedPassword) = true
    · exact absurd (by simp [Room.SetPassword, hsame, Room.Version]) hchg
    · by_cases hp : password = ""
      · subst hp
        exact absurd (by
          simp [Room.SetPassword, hsame, Room.Version, Room.storeHashedPassword,
            Room.record]) hchg
      · refine ⟨hp, ?_⟩
        cases hgen : E.GenerateFromPassword password with
        | error err =>
          exact absurd (by simp [Room.SetPassword, hsame, hp, hgen, Room.Version]) hchg
        | ok h =>
          refine ⟨h, rfl, ?_⟩
          simp [Room.SetPassword, hsame, hp, hgen, Room.Version, Room.storeHashedPassword,
            Room.record]
  · intro password h hp hsame hgen
    simp [Room.SetPassword, hsame, hp, hgen, Room.Version, Room.storeHashedPassword,
      Room.record]

/-- C13 at concrete inputs: the room is protected by "old" at version 42; clearing the
password succeeds, leaves version 42 and an empty hash; setting "new" instead moves the
version to the checksum of the new hash. -/
theorem SetPassword_version_witness :
    ((Room.SetPassword (demoEnv false) demoRoomLocked "").2.Version = 42 ∧
      (Room.SetPassword (demoEnv false) demoRoomLocked "").2.CheckVersion 42 = true ∧
      (Room.SetPassword (demoEnv false) demoRoomLocked "").2.HashedPassword = [] ∧
      (Room.SetPassword (demoEnv false) demoRoomLocked "").2.HashedPassword ≠
        demoRoomLocked.HashedPassword) ∧
    ((Room.SetPassword (demoEnv false) demoRoomLocked "new").2.Version =
        ChecksumIEEE (demoHash "new") ∧
      (Room.SetPassword (demoEnv false) demoRoomLocked "new").2.HashedPassword =
        demoHash "new") :=
  ⟨(SetPassword_version (demoEnv false) demoRoomLocked).1 (by decide) rfl,
   (SetPassword_version (demoEnv false) demoRoomLocked).2.2 "new" (demoHash "new")
     (by decide) (by decide) rfl⟩

end SyncTV
